import Mathlib

/-
Verification of the character locomotion and physics-integration core of the
xr-formant repository.

The per-frame control loop of CharacterPlayer (src/components/Stage/
CharacterPlayer.tsx, second iteration, the one containing the stamina system,
teleport handler, squeeze mode and companion target) and the companion
follower (Companion.tsx / part_012) are embedded as pure functions over
exact rational arithmetic.  External collaborators (the Rapier physics world,
the XR session, trigonometric evaluation) are modelled as per-frame oracle
inputs in an Env record: computeColliderMovement and computedGrounded results
are oracle fields, and the values returned by Math.sin / Math.cos at the
rotation angles of the frame are oracle fields, since no claim depends on
trigonometric identities.  Math.sqrt of a sum of squares in the companion is
modelled by an explicit parameter d constrained by d^2 = dx^2 + dz^2 and
0 <= d in the theorems, which is exactly the value the source computes.
-/

namespace XrFormant

/-- A 3-component vector of exact rationals, standing for the {x, y, z}
objects passed to and from the Rapier API. -/
structure Vec3 where
  x : ℚ
  y : ℚ
  z : ℚ
deriving DecidableEq

/-- The leva control values consumed by CharacterPlayer
(useControls "Properties"). -/
structure PlayerConfig where
  maxWalkingSpeed : ℚ
  staminaEnabled : Bool
  maxStamina : ℚ
  staminaRegenRate : ℚ
deriving DecidableEq

/-- The per-frame raw input: keyboard control booleans from
useKeyboardControls, raw XR thumbstick axes and XR button states. -/
structure Intent where
  forward : Bool
  back : Bool
  left : Bool
  right : Bool
  grow : Bool
  shrink : Bool
  rotateLeft : Bool
  rotateRight : Bool
  jump : Bool
  squeeze : Bool
  xrLeftX : ℚ
  xrLeftY : ℚ
  xrRightX : ℚ
  xrGrowBtn : Bool
  xrShrinkBtn : Bool
deriving DecidableEq

/-- Per-frame oracle values from the external collaborators: XR session
presence, the physics world (collider lookup and the two shape-cast results
of the frame) and the trigonometric evaluations. -/
structure Env where
  session : Bool
  presenting : Bool
  colliderPresent : Bool
  probeGrounded : Bool
  frameGrounded : Bool
  computedMovement : Vec3
  sinCur : ℚ
  cosCur : ℚ
  sinHead : ℚ
  cosHead : ℚ
deriving DecidableEq

/-- The mutable locomotion state of the player: the React state cells
(rotation, scale, stamina), the refs (velocityRef, isJumpingRef) and the
physics body (translation, linvel). -/
structure PlayerState where
  rotation : ℚ
  scale : ℚ
  stamina : ℚ
  velocity : Vec3
  isJumping : Bool
  translation : Vec3
  linvel : Vec3
deriving DecidableEq

/-- One frame worth of inputs for trace theorems. -/
structure FrameIn where
  intent : Intent
  env : Env
  dt : ℚ
deriving DecidableEq

/-- const gravity = -9.81. -/
def gravity : ℚ := -981/100

/-- const jumpVelocity = 3. -/
def jumpVelocity : ℚ := 3

/-- xrMovementX: the left thumbstick xAxis after the 0.1 deadzone, read only
while an XR session is active. -/
def xrMoveX (e : Env) (i : Intent) : ℚ :=
  if e.session then (if 1/10 < |i.xrLeftX| then i.xrLeftX else 0) else 0

/-- xrMovementZ: the left thumbstick yAxis after the 0.1 deadzone, read only
while an XR session is active. -/
def xrMoveZ (e : Env) (i : Intent) : ℚ :=
  if e.session then (if 1/10 < |i.xrLeftY| then i.xrLeftY else 0) else 0

/-- xrRotationInput: the right thumbstick xAxis after the 0.1 deadzone. -/
def xrRotInput (e : Env) (i : Intent) : ℚ :=
  if e.session then (if 1/10 < |i.xrRightX| then i.xrRightX else 0) else 0

/-- xrGrow: the y-button of the left controller while in a session. -/
def xrGrow (e : Env) (i : Intent) : Bool :=
  e.session && i.xrGrowBtn

/-- xrShrink: the x-button of the left controller while in a session. -/
def xrShrink (e : Env) (i : Intent) : Bool :=
  e.session && i.xrShrinkBtn

/-- rotationDelta accumulated from rotateLeft, rotateRight and the XR
rotation input (rotationSpeed = 0.05, XR input scaled by 2). -/
def rotationDelta (e : Env) (i : Intent) : ℚ :=
  (if i.rotateLeft then 1/20 else 0) +
    (if i.rotateRight then -(1/20) else 0) +
    (if 1/10 < |xrRotInput e i| then -(xrRotInput e i * (1/20) * 2) else 0)

/-- Math.sin(movementRotation): head yaw while presenting in a session,
manual rotation otherwise. -/
def sinMovOf (e : Env) : ℚ :=
  if e.session && e.presenting then e.sinHead else e.sinCur

/-- Math.cos(movementRotation). -/
def cosMovOf (e : Env) : ℚ :=
  if e.session && e.presenting then e.cosHead else e.cosCur

/-- currentSpeed: maxWalkingSpeed, gated to 0 / 30 percent / 70 percent at
the stamina thresholds 5 units, 30 percent and 60 percent of maxStamina
when the stamina system is enabled. -/
def currentSpeed (c : PlayerConfig) (st : ℚ) : ℚ :=
  if c.staminaEnabled then
    if st < 5 then 0
    else if st < c.maxStamina * (3/10) then c.maxWalkingSpeed * (3/10)
    else if st < c.maxStamina * (6/10) then c.maxWalkingSpeed * (7/10)
    else c.maxWalkingSpeed
  else c.maxWalkingSpeed

/-- Keyboard contribution to movementX: each held direction key adds a term
scaled by sin/cos of the current rotation and the current speed. -/
def keyboardMoveX (e : Env) (i : Intent) (sp : ℚ) : ℚ :=
  (if i.forward then -(e.sinCur * sp) else 0) +
    (if i.back then e.sinCur * sp else 0) +
    (if i.left then -(e.cosCur * sp) else 0) +
    (if i.right then e.cosCur * sp else 0)

/-- Keyboard contribution to movementZ. -/
def keyboardMoveZ (e : Env) (i : Intent) (sp : ℚ) : ℚ :=
  (if i.forward then -(e.cosCur * sp) else 0) +
    (if i.back then e.cosCur * sp else 0) +
    (if i.left then e.sinCur * sp else 0) +
    (if i.right then -(e.sinCur * sp) else 0)

/-- XR thumbstick contribution to movementX (vrMoveSpeed = currentSpeed *
1.5, sign-split exactly as in the source). -/
def vrMoveX (e : Env) (i : Intent) (sp : ℚ) : ℚ :=
  if 1/10 < |xrMoveX e i| ∨ 1/10 < |xrMoveZ e i| then
    (if 0 < xrMoveZ e i then -(sinMovOf e * xrMoveZ e i * (sp * (3/2)))
      else if xrMoveZ e i < 0 then sinMovOf e * |xrMoveZ e i| * (sp * (3/2))
      else 0) +
    (if 0 < xrMoveX e i then -(cosMovOf e * xrMoveX e i * (sp * (3/2)))
      else if xrMoveX e i < 0 then cosMovOf e * |xrMoveX e i| * (sp * (3/2))
      else 0)
  else 0

/-- XR thumbstick contribution to movementZ. -/
def vrMoveZ (e : Env) (i : Intent) (sp : ℚ) : ℚ :=
  if 1/10 < |xrMoveX e i| ∨ 1/10 < |xrMoveZ e i| then
    (if 0 < xrMoveZ e i then -(cosMovOf e * xrMoveZ e i * (sp * (3/2)))
      else if xrMoveZ e i < 0 then cosMovOf e * |xrMoveZ e i| * (sp * (3/2))
      else 0) +
    (if 0 < xrMoveX e i then sinMovOf e * xrMoveX e i * (sp * (3/2))
      else if xrMoveX e i < 0 then -(sinMovOf e * |xrMoveX e i| * (sp * (3/2)))
      else 0)
  else 0

/-- movementX accumulated over the keyboard and XR branches. -/
def movementX (c : PlayerConfig) (e : Env) (i : Intent) (s : PlayerState) : ℚ :=
  keyboardMoveX e i (currentSpeed c s.stamina) +
    vrMoveX e i (currentSpeed c s.stamina)

/-- movementZ accumulated over the keyboard and XR branches. -/
def movementZ (c : PlayerConfig) (e : Env) (i : Intent) (s : PlayerState) : ℚ :=
  keyboardMoveZ e i (currentSpeed c s.stamina) +
    vrMoveZ e i (currentSpeed c s.stamina)

/-- isMoving: set by each keyboard direction branch and by the XR input
branch; it records held input, not produced movement. -/
def isMoving (e : Env) (i : Intent) : Bool :=
  i.forward || i.back || i.left || i.right ||
    decide (1/10 < |xrMoveX e i| ∨ 1/10 < |xrMoveZ e i|)

/-- JUMPING block: a zero-displacement shape-cast ground probe is run only
when a jump intent arrives while not already jumping and the collider is
available; on a grounded report, verticalVelocity becomes jumpVelocity and
the jumping flag is set (the nested source conditionals are flattened into
one conjunction). -/
def jumpPhase (e : Env) (i : Intent) (s : PlayerState) : PlayerState :=
  if i.jump && !s.isJumping && e.colliderPresent && e.probeGrounded then
    { s with
      velocity := { x := s.velocity.x, y := jumpVelocity, z := s.velocity.z },
      isJumping := true }
  else s

/-- SCALING block as a scalar update.  Both setScale calls read the same
render-captured scale value; when grow and shrink both fire, the second
setScale (the shrink one) is the value React keeps, so the shrink branch
overwrites the grow branch. -/
def scaleNext (e : Env) (i : Intent) (sc : ℚ) : ℚ :=
  let afterGrow :=
    if (i.grow || xrGrow e i) && decide (sc < 3) then min (sc + 1/100) 3
    else sc
  if (i.shrink || xrShrink e i) && decide (3/10 < sc) then
    max (sc - 1/100) (3/10)
  else afterGrow

/-- SCALING block applied to the state. -/
def scalePhase (e : Env) (i : Intent) (s : PlayerState) : PlayerState :=
  { s with scale := scaleNext e i s.scale }

/-- STAMINA SYSTEM block as a scalar update: drain at 15 per second while
isMoving, else regenerate at staminaRegenRate per second, in both cases
clamped. -/
def staminaNext (c : PlayerConfig) (moving : Bool) (dt st : ℚ) : ℚ :=
  if c.staminaEnabled then
    if moving then max 0 (st - 15 * dt)
    else min c.maxStamina (st + c.staminaRegenRate * dt)
  else st

/-- STAMINA SYSTEM block applied to the state. -/
def staminaPhase (c : PlayerConfig) (moving : Bool) (dt : ℚ)
    (s : PlayerState) : PlayerState :=
  { s with stamina := staminaNext c moving dt s.stamina }

/-- PHYSICS block: gravity is added to verticalVelocity unconditionally,
the desired displacement is velocity times delta, and when the collider is
available the shape-cast result is applied: the squeeze branch (squeeze
held, no session, moving forward) writes the translation directly using the
raw desired x and z and the collision-resolved y, the normal branch writes
the collision-resolved velocity; the landing clamp (grounded and
verticalVelocity at most 0 resets verticalVelocity and the jumping flag)
runs in both branches. -/
def physicsPhase (e : Env) (i : Intent) (mx mz dt : ℚ)
    (s : PlayerState) : PlayerState :=
  let vy := s.velocity.y + gravity * dt
  if e.colliderPresent then
    if i.squeeze && !e.session && i.forward then
      { s with
        velocity :=
          { x := mx, y := if e.frameGrounded ∧ vy ≤ 0 then 0 else vy, z := mz },
        isJumping := if e.frameGrounded ∧ vy ≤ 0 then false else s.isJumping,
        translation :=
          { x := s.translation.x + mx * dt,
            y := s.translation.y + e.computedMovement.y,
            z := s.translation.z + mz * dt },
        linvel := { x := 0, y := e.computedMovement.y / dt, z := 0 } }
    else
      { s with
        velocity :=
          { x := mx, y := if e.frameGrounded ∧ vy ≤ 0 then 0 else vy, z := mz },
        isJumping := if e.frameGrounded ∧ vy ≤ 0 then false else s.isJumping,
        linvel :=
          { x := e.computedMovement.x / dt,
            y := e.computedMovement.y / dt,
            z := e.computedMovement.z / dt } }
  else
    { s with velocity := { x := mx, y := vy, z := mz } }

/-- One execution of the useFrame callback of CharacterPlayer: rotation
update, movement computation, jump probe, scaling, stamina update, physics
integration, in source order. -/
def frameStep (c : PlayerConfig) (e : Env) (i : Intent) (dt : ℚ)
    (s : PlayerState) : PlayerState :=
  let s1 : PlayerState := { s with rotation := s.rotation + rotationDelta e i }
  physicsPhase e i (movementX c e i s1) (movementZ c e i s1) dt
    (staminaPhase c (isMoving e i) dt (scalePhase e i (jumpPhase e i s1)))

/-- Iterated frames. -/
def playerTrace (c : PlayerConfig) (frames : ℕ → FrameIn)
    (s0 : PlayerState) : ℕ → PlayerState
  | 0 => s0
  | n + 1 =>
    frameStep c (frames n).env (frames n).intent (frames n).dt
      (playerTrace c frames s0 n)

/-- handleTeleport: place the body center 1.5 above the target, zero the
body linear velocity and the accumulated velocity ref, clear the jumping
flag. -/
def handleTeleport (target : Vec3) (s : PlayerState) : PlayerState :=
  { s with
    translation := { x := target.x, y := target.y + 3/2, z := target.z },
    linvel := { x := 0, y := 0, z := 0 },
    velocity := { x := 0, y := 0, z := 0 },
    isJumping := false }

/-- Companion attraction law (Companion useFrame): dx, dz are the XZ plane
offsets to the target point and d is the value Math.sqrt returns for the XZ
distance (constrained by d^2 = dx^2 + dz^2 and 0 <= d in the theorems).
Above the 0.05 dead-zone the movement is the unit direction scaled by
followSpeed times min((d / followDistance)^2 * 5 + 1, 8). -/
def companionStep (followDistance followSpeed dx dz d : ℚ) : ℚ × ℚ :=
  if 1/20 < d then
    (dx / d * followSpeed * min ((d / followDistance)^2 * 5 + 1) 8,
      dz / d * followSpeed * min ((d / followDistance)^2 * 5 + 1) 8)
  else (0, 0)

/-- One companion update with a stationary target at the origin, the
companion on the x axis (so the XZ distance is exactly the absolute value
of the coordinate), the default follow parameters (followDistance 2,
followSpeed 3) and no obstacles, in which case the shape-cast returns the
desired displacement and the kinematic-velocity body advances by movement
times dt. -/
def cstep (dt x : ℚ) : ℚ :=
  x + (companionStep 2 3 (0 - x) 0 |0 - x|).1 * dt

/-- Iterated companion updates at a fixed timestep dt. -/
def companionIterX (dt x0 : ℚ) : ℕ → ℚ
  | 0 => x0
  | n + 1 => cstep dt (companionIterX dt x0 n)

/-! Concrete instances used by witnesses and counterexamples. -/

/-- All-off input. -/
def intentNone : Intent :=
  { forward := false, back := false, left := false, right := false,
    grow := false, shrink := false, rotateLeft := false, rotateRight := false,
    jump := false, squeeze := false, xrLeftX := 0, xrLeftY := 0, xrRightX := 0,
    xrGrowBtn := false, xrShrinkBtn := false }

/-- Desktop frame over flat ground: no session, collider found, both
shape-casts grounded, no obstacle displacement, rotation 0. -/
def envGround : Env :=
  { session := false, presenting := false, colliderPresent := true,
    probeGrounded := true, frameGrounded := true,
    computedMovement := { x := 0, y := 0, z := 0 },
    sinCur := 0, cosCur := 1, sinHead := 0, cosHead := 1 }

/-- Default control values (stamina system off). -/
def cfgDefault : PlayerConfig :=
  { maxWalkingSpeed := 5, staminaEnabled := false, maxStamina := 100,
    staminaRegenRate := 20 }

/-- Default control values with the stamina system on. -/
def cfgStamina : PlayerConfig :=
  { cfgDefault with staminaEnabled := true }

/-- Mounted player state: scale 1.65, full stamina, spawn at (-20, 2, 0). -/
def stateInit : PlayerState :=
  { rotation := 0, scale := 33/20, stamina := 100,
    velocity := { x := 0, y := 0, z := 0 }, isJumping := false,
    translation := { x := -20, y := 2, z := 0 },
    linvel := { x := 0, y := 0, z := 0 } }

/-- A grounded resting frame input. -/
def frameGroundRest : FrameIn :=
  { intent := intentNone, env := envGround, dt := 1/60 }

/-! C1. -/

/-- C1: invoking the teleport entry point with any target position sets, for
the very next read, the body translation to the target offset vertically by
the fixed half-height constant 1.5, the body linear velocity to zero, the
accumulated velocity ref to zero and the jumping flag to false, from any
in-flight locomotion state. -/
theorem teleport_resets_body (s : PlayerState) (t : Vec3) :
    (handleTeleport t s).translation = { x := t.x, y := t.y + 3/2, z := t.z } ∧
    (handleTeleport t s).linvel = { x := 0, y := 0, z := 0 } ∧
    (handleTeleport t s).velocity = { x := 0, y := 0, z := 0 } ∧
    (handleTeleport t s).isJumping = false := by
  refine ⟨rfl, rfl, rfl, rfl⟩

/-! C2. -/

/-- The jump block is a no-op while already jumping. -/
lemma jumpPhase_of_jumping (e : Env) (i : Intent) (s : PlayerState)
    (h : s.isJumping = true) : jumpPhase e i s = s := by
  simp [jumpPhase, h]

/-- C2: while the jumping flag is set, the frame with a jump intent is the
frame without one, so the jump intent leaves verticalVelocity (and all other
state) unchanged; and whenever the jump block changes the state at all, a
jump intent was present, the jumping flag was clear, the collider was found,
the zero-displacement ground probe reported grounded, and the result has
verticalVelocity jumpVelocity with the jumping flag set. -/
theorem jump_requires_ground_probe :
    (∀ (c : PlayerConfig) (e : Env) (i : Intent) (dt : ℚ) (s : PlayerState),
      s.isJumping = true →
      frameStep c e { i with jump := true } dt s =
        frameStep c e { i with jump := false } dt s) ∧
    (∀ (e : Env) (i : Intent) (s : PlayerState),
      jumpPhase e i s ≠ s →
      i.jump = true ∧ s.isJumping = false ∧ e.colliderPresent = true ∧
        e.probeGrounded = true ∧
        (jumpPhase e i s).velocity.y = jumpVelocity ∧
        (jumpPhase e i s).isJumping = true) := by
  constructor
  · intro c e i dt s h
    have hj : ∀ (i2 : Intent) (r : ℚ),
        jumpPhase e i2 { s with rotation := r } = { s with rotation := r } :=
      fun i2 r => jumpPhase_of_jumping e i2 { s with rotation := r } h
    simp only [frameStep]
    rw [hj, hj]
    rfl
  · intro e i s h
    by_cases hc : (i.jump && !s.isJumping && e.colliderPresent &&
        e.probeGrounded) = true
    · have hc2 := hc
      simp only [Bool.and_eq_true, Bool.not_eq_true'] at hc2
      refine ⟨hc2.1.1.1, hc2.1.1.2, hc2.1.2, hc2.2, ?_, ?_⟩
      · unfold jumpPhase
        rw [if_pos hc]
      · unfold jumpPhase
        rw [if_pos hc]
    · exfalso
      apply h
      unfold jumpPhase
      rw [if_neg hc]

/-- C2 witness: a concrete airborne state where the jump intent makes no
difference to the frame. -/
theorem jump_requires_ground_probe_app :
    { stateInit with isJumping := true }.isJumping = true ∧
    frameStep cfgDefault envGround { intentNone with jump := true } (1/60)
        { stateInit with isJumping := true } =
      frameStep cfgDefault envGround { intentNone with jump := false } (1/60)
        { stateInit with isJumping := true } :=
  ⟨rfl, jump_requires_ground_probe.1 cfgDefault envGround intentNone (1/60)
    { stateInit with isJumping := true } rfl⟩

/-! C3. -/

/-- Single frame landing: with no jump intent, the collider found and the
shape-cast reporting grounded, a frame entered with verticalVelocity at most
0 ends with verticalVelocity exactly 0 and the jumping flag clear (gravity
is integrated first, the clamp runs after the query, same frame). -/
lemma frame_lands (c : PlayerConfig) (e : Env) (i : Intent) (dt : ℚ)
    (s : PlayerState) (hj : i.jump = false) (hc : e.colliderPresent = true)
    (hg : e.frameGrounded = true) (hdt : 0 ≤ dt) (hv : s.velocity.y ≤ 0) :
    (frameStep c e i dt s).velocity.y = 0 ∧
    (frameStep c e i dt s).isJumping = false := by
  have hgrav : gravity * dt ≤ 0 :=
    mul_nonpos_iff.mpr (Or.inr ⟨by norm_num [gravity], hdt⟩)
  simp only [frameStep, jumpPhase, scalePhase, staminaPhase, physicsPhase,
    hj, hc, hg, Bool.false_and, Bool.and_false, if_true, if_false,
    Bool.false_eq_true, ite_false, ite_true, true_and]
  split_ifs with h1 h2 h3
  · exact ⟨rfl, rfl⟩
  · exact absurd (by linarith) h2
  · exact ⟨rfl, rfl⟩
  · exact absurd (by linarith) h3

/-- C3: once grounded with verticalVelocity at most 0, every following frame
with no jump intent, a found collider and a grounded shape-cast ends with
verticalVelocity 0 and the jumping flag clear; and gravity is accumulated
into verticalVelocity unconditionally, as the frames without a collider
(which skip the query and the clamp) show. -/
theorem grounded_rest_frames :
    (∀ (c : PlayerConfig) (frames : ℕ → FrameIn) (s0 : PlayerState),
      (∀ n, (frames n).intent.jump = false ∧
        (frames n).env.colliderPresent = true ∧
        (frames n).env.frameGrounded = true ∧ 0 ≤ (frames n).dt) →
      s0.velocity.y ≤ 0 →
      ∀ n, (playerTrace c frames s0 (n + 1)).velocity.y = 0 ∧
        (playerTrace c frames s0 (n + 1)).isJumping = false) ∧
    (∀ (c : PlayerConfig) (e : Env) (i : Intent) (dt : ℚ) (s : PlayerState),
      e.colliderPresent = false →
      (frameStep c e i dt s).velocity.y = s.velocity.y + gravity * dt) := by
  constructor
  · intro c frames s0 hf hv0 n
    induction n with
    | zero =>
      exact frame_lands c _ _ _ s0 (hf 0).1 (hf 0).2.1 (hf 0).2.2.1
        (hf 0).2.2.2 hv0
    | succ k ih =>
      exact frame_lands c _ _ _ _ (hf (k + 1)).1 (hf (k + 1)).2.1
        (hf (k + 1)).2.2.1 (hf (k + 1)).2.2.2 ih.1.le
  · intro c e i dt s hc
    simp [frameStep, jumpPhase, scalePhase, staminaPhase, physicsPhase, hc]

/-- C3 witness: one resting frame on flat ground from the spawn state keeps
verticalVelocity at 0 with the jumping flag clear. -/
theorem grounded_rest_frames_app :
    (playerTrace cfgDefault (fun _ => frameGroundRest) stateInit 1).velocity.y
        = 0 ∧
    (playerTrace cfgDefault (fun _ => frameGroundRest) stateInit 1).isJumping
        = false :=
  grounded_rest_frames.1 cfgDefault (fun _ => frameGroundRest) stateInit
    (fun _ => ⟨rfl, rfl, rfl, by norm_num [frameGroundRest]⟩)
    (by norm_num [stateInit]) 0

/-! C4. -/

/-- The stamina output of a frame is the stamina update applied to the
pre-frame stamina with this frame's isMoving flag. -/
lemma frameStep_stamina (c : PlayerConfig) (e : Env) (i : Intent) (dt : ℚ)
    (s : PlayerState) :
    (frameStep c e i dt s).stamina =
      staminaNext c (isMoving e i) dt s.stamina := by
  simp only [frameStep, physicsPhase, staminaPhase, scalePhase, jumpPhase]
  split_ifs <;> rfl

/-- Spawn state drained to 4 stamina units, below the hard gate of 5. -/
def stateLowStamina : PlayerState := { stateInit with stamina := 4 }

/-- Forward key held, everything else off. -/
def intentForward : Intent := { intentNone with forward := true }

/-- C4 counterexample: with the stamina system enabled and stamina at 4
(below the gate of 5), a frame with the forward key held produces exactly
zero movement, yet stamina falls from 4 to 2.5 instead of regenerating:
drain follows held input, not produced movement. -/
theorem stamina_drains_on_zero_movement :
    movementX cfgStamina envGround intentForward stateLowStamina = 0 ∧
    movementZ cfgStamina envGround intentForward stateLowStamina = 0 ∧
    (frameStep cfgStamina envGround intentForward (1/10)
        stateLowStamina).stamina = 5/2 ∧
    (frameStep cfgStamina envGround intentForward (1/10)
        stateLowStamina).stamina < stateLowStamina.stamina := by
  have hst : (frameStep cfgStamina envGround intentForward (1/10)
      stateLowStamina).stamina = 5/2 := by
    rw [frameStep_stamina]
    norm_num [staminaNext, isMoving, xrMoveX, xrMoveZ, cfgStamina, cfgDefault,
      intentForward, intentNone, envGround, stateLowStamina, stateInit]
  refine ⟨?_, ?_, hst, ?_⟩
  · norm_num [movementX, keyboardMoveX, vrMoveX, xrMoveX, xrMoveZ,
      currentSpeed, cfgStamina, cfgDefault, envGround, intentForward,
      intentNone, stateLowStamina, stateInit]
  · norm_num [movementZ, keyboardMoveZ, vrMoveZ, xrMoveX, xrMoveZ,
      currentSpeed, cfgStamina, cfgDefault, envGround, intentForward,
      intentNone, stateLowStamina, stateInit]
  · rw [hst]
    norm_num [stateLowStamina, stateInit]

/-- C4 amended: with the stamina system enabled, stamina is drained at 15
units per second exactly when some directional input is held this frame (a
keyboard direction key, or an XR thumbstick axis beyond the 0.1 deadzone)
and regenerated at staminaRegenRate per second otherwise, clamped to
[0, maxStamina] - regardless of whether the held input produced any
movement. -/
theorem stamina_update_rule (c : PlayerConfig) (e : Env) (i : Intent)
    (dt : ℚ) (s : PlayerState) (h : c.staminaEnabled = true) :
    (frameStep c e i dt s).stamina =
      if isMoving e i then max 0 (s.stamina - 15 * dt)
      else min c.maxStamina (s.stamina + c.staminaRegenRate * dt) := by
  rw [frameStep_stamina]
  simp [staminaNext, h]

/-- C4 witness: a concrete moving frame drains from 50 by 1.5 units. -/
theorem stamina_update_rule_app :
    cfgStamina.staminaEnabled = true ∧
    (frameStep cfgStamina envGround intentForward (1/10)
        { stateInit with stamina := 50 }).stamina =
      if isMoving envGround intentForward then max 0 (50 - 15 * (1/10))
      else min cfgStamina.maxStamina
        (50 + cfgStamina.staminaRegenRate * (1/10)) :=
  ⟨rfl, by
    rw [stamina_update_rule cfgStamina envGround intentForward (1/10)
      { stateInit with stamina := 50 } rfl]⟩

/-! C5. -/

/-- The stamina update keeps the value inside [0, maxStamina]. -/
lemma staminaNext_bounds (c : PlayerConfig) (moving : Bool) (dt st : ℚ)
    (hmax : 0 ≤ c.maxStamina) (hreg : 0 ≤ c.staminaRegenRate) (hdt : 0 ≤ dt)
    (h0 : 0 ≤ st) (h1 : st ≤ c.maxStamina) :
    0 ≤ staminaNext c moving dt st ∧
    staminaNext c moving dt st ≤ c.maxStamina := by
  unfold staminaNext
  split_ifs
  · exact ⟨le_max_left 0 _, max_le hmax (by linarith)⟩
  · refine ⟨le_min hmax ?_, min_le_left _ _⟩
    nlinarith
  · exact ⟨h0, h1⟩

/-- C5: for every frame sequence with nonnegative delta times and admissible
control values, stamina stays inside [0, maxStamina] at every frame; and
when the stamina system is enabled and stamina drops below 5, the movement
speed of the frame is 0 and the movement produced is exactly zero whatever
the input. -/
theorem stamina_bounds_and_speed_gate :
    (∀ (c : PlayerConfig) (frames : ℕ → FrameIn) (s0 : PlayerState),
      0 ≤ c.maxStamina → 0 ≤ c.staminaRegenRate →
      (∀ n, 0 ≤ (frames n).dt) →
      0 ≤ s0.stamina → s0.stamina ≤ c.maxStamina →
      ∀ n, 0 ≤ (playerTrace c frames s0 n).stamina ∧
        (playerTrace c frames s0 n).stamina ≤ c.maxStamina) ∧
    (∀ (c : PlayerConfig) (e : Env) (i : Intent) (s : PlayerState),
      c.staminaEnabled = true → s.stamina < 5 →
      currentSpeed c s.stamina = 0 ∧ movementX c e i s = 0 ∧
        movementZ c e i s = 0) := by
  constructor
  · intro c frames s0 hmax hreg hdt h0 h1 n
    induction n with
    | zero => exact ⟨h0, h1⟩
    | succ k ih =>
      have hred : playerTrace c frames s0 (k + 1) =
          frameStep c (frames k).env (frames k).intent (frames k).dt
            (playerTrace c frames s0 k) := rfl
      rw [hred, frameStep_stamina]
      exact staminaNext_bounds c _ _ _ hmax hreg (hdt k) ih.1 ih.2
  · intro c e i s he hlt
    have hsp : currentSpeed c s.stamina = 0 := by
      simp [currentSpeed, he, hlt]
    refine ⟨hsp, ?_, ?_⟩
    · unfold movementX keyboardMoveX vrMoveX
      rw [hsp]
      simp [mul_zero, zero_mul, neg_zero, add_zero, ite_self]
    · unfold movementZ keyboardMoveZ vrMoveZ
      rw [hsp]
      simp [mul_zero, zero_mul, neg_zero, add_zero, ite_self]

/-- C5 witness: two resting frames from spawn keep stamina inside the
bounds, and the low-stamina state is speed-gated to 0. -/
theorem stamina_bounds_and_speed_gate_app :
    (0 ≤ (playerTrace cfgStamina (fun _ => frameGroundRest) stateInit
        2).stamina ∧
      (playerTrace cfgStamina (fun _ => frameGroundRest) stateInit 2).stamina
        ≤ cfgStamina.maxStamina) ∧
    currentSpeed cfgStamina stateLowStamina.stamina = 0 :=
  ⟨stamina_bounds_and_speed_gate.1 cfgStamina (fun _ => frameGroundRest)
      stateInit (by norm_num [cfgStamina, cfgDefault])
      (by norm_num [cfgStamina, cfgDefault])
      (fun _ => by norm_num [frameGroundRest]) (by norm_num [stateInit])
      (by norm_num [stateInit, cfgStamina, cfgDefault]) 2,
    (stamina_bounds_and_speed_gate.2 cfgStamina envGround intentNone
      stateLowStamina rfl (by norm_num [stateLowStamina, stateInit])).1⟩

/-! C6. -/

/-- The scale output of a frame is the scale update applied to the
pre-frame scale. -/
lemma frameStep_scale (c : PlayerConfig) (e : Env) (i : Intent) (dt : ℚ)
    (s : PlayerState) :
    (frameStep c e i dt s).scale = scaleNext e i s.scale := by
  simp only [frameStep, physicsPhase, staminaPhase, scalePhase, jumpPhase]
  split_ifs <;> rfl

/-- The scale update keeps the value inside [0.3, 3]. -/
lemma scaleNext_bounds (e : Env) (i : Intent) (sc : ℚ) (h0 : 3/10 ≤ sc)
    (h1 : sc ≤ 3) : 3/10 ≤ scaleNext e i sc ∧ scaleNext e i sc ≤ 3 := by
  simp only [scaleNext]
  split_ifs
  · exact ⟨le_max_right _ _, max_le (by linarith) (by norm_num)⟩
  · exact ⟨le_min (by linarith) (by norm_num), min_le_right _ _⟩
  · exact ⟨h0, h1⟩

/-- C6: over any sequence of frames (hence any sequence of grow and shrink
intents), the scale stays inside [0.3, 3.0] at every frame once it starts
inside. -/
theorem scale_always_clamped (c : PlayerConfig) (frames : ℕ → FrameIn)
    (s0 : PlayerState) (h0 : 3/10 ≤ s0.scale) (h1 : s0.scale ≤ 3) :
    ∀ n, 3/10 ≤ (playerTrace c frames s0 n).scale ∧
      (playerTrace c frames s0 n).scale ≤ 3 := by
  intro n
  induction n with
  | zero => exact ⟨h0, h1⟩
  | succ k ih =>
    have hred : playerTrace c frames s0 (k + 1) =
        frameStep c (frames k).env (frames k).intent (frames k).dt
          (playerTrace c frames s0 k) := rfl
    rw [hred, frameStep_scale]
    exact scaleNext_bounds _ _ _ ih.1 ih.2

/-- C6 witness: the mounted scale 1.65 stays inside the bounds after a
frame. -/
theorem scale_always_clamped_app :
    3/10 ≤ (playerTrace cfgDefault (fun _ => frameGroundRest) stateInit
        1).scale ∧
    (playerTrace cfgDefault (fun _ => frameGroundRest) stateInit 1).scale
      ≤ 3 :=
  scale_always_clamped cfgDefault (fun _ => frameGroundRest) stateInit
    (by norm_num [stateInit]) (by norm_num [stateInit]) 1

/-! C10. -/

/-- Grow and shrink keys held together. -/
def intentGrowShrink : Intent :=
  { intentNone with grow := true, shrink := true }

/-- Grow key held alone. -/
def intentGrow : Intent := { intentNone with grow := true }

/-- C10 counterexample: with grow and shrink held in the same frame and
scale 1.65 < 3.0, the frame changes the scale by -0.01 (the shrink write is
the one React keeps), not by +min(0.01, 3 - scale) as the claim states for
any frame with the grow intent held. -/
theorem scale_opposing_intents_cex :
    stateInit.scale < 3 ∧
    (frameStep cfgDefault envGround intentGrowShrink (1/60) stateInit).scale
      = stateInit.scale - 1/100 ∧
    (frameStep cfgDefault envGround intentGrowShrink (1/60) stateInit).scale
      ≠ stateInit.scale + min (1/100) (3 - stateInit.scale) := by
  have h : (frameStep cfgDefault envGround intentGrowShrink (1/60)
      stateInit).scale = 41/25 := by
    rw [frameStep_scale]
    norm_num [scaleNext, xrGrow, xrShrink, intentGrowShrink, intentNone,
      envGround, stateInit, max_def]
  refine ⟨by norm_num [stateInit], ?_, ?_⟩
  · rw [h]
    norm_num [stateInit]
  · rw [h]
    norm_num [stateInit, min_def]

/-- C10 amended: in a frame where the grow intent is held, the shrink intent
is not, and scale < 3.0, the scale changes by exactly +min(0.01, 3.0 -
scale); in a frame where the shrink intent is held and scale > 0.3 it
changes by exactly -min(0.01, scale - 0.3) (shrink wins when both intents
are held); in all cases the scale output is independent of the frame delta
time, so the ramp is per-frame, not per-second. -/
theorem scale_per_frame_ramp (c : PlayerConfig) (e : Env) (i : Intent)
    (dt : ℚ) (s : PlayerState) :
    ((i.grow || xrGrow e i) = true → (i.shrink || xrShrink e i) = false →
      s.scale < 3 →
      (frameStep c e i dt s).scale = s.scale + min (1/100) (3 - s.scale)) ∧
    ((i.shrink || xrShrink e i) = true → 3/10 < s.scale →
      (frameStep c e i dt s).scale = s.scale - min (1/100) (s.scale - 3/10)) ∧
    (∀ t1 t2 : ℚ,
      (frameStep c e i t1 s).scale = (frameStep c e i t2 s).scale) := by
  refine ⟨?_, ?_, ?_⟩
  · intro hg hs hlt
    have hd : decide (s.scale < 3) = true := decide_eq_true hlt
    rw [frameStep_scale]
    simp only [scaleNext, hg, hs, hd, Bool.true_and, Bool.false_and,
      if_true, if_false, Bool.false_eq_true, ite_false, ite_true]
    rcases le_total (s.scale + 1/100) 3 with h | h
    · rw [min_eq_left h, min_eq_left (by linarith)]
    · rw [min_eq_right h, min_eq_right (by linarith)]
      ring
  · intro hs hgt
    have hd : decide (3/10 < s.scale) = true := decide_eq_true hgt
    rw [frameStep_scale]
    simp only [scaleNext, hs, hd, Bool.true_and, if_true, ite_true]
    rcases le_total (s.scale - 1/100) (3/10) with h | h
    · rw [max_eq_right h, min_eq_right (by linarith)]
      ring
    · rw [max_eq_left h, min_eq_left (by linarith)]
  · intro t1 t2
    rw [frameStep_scale, frameStep_scale]

/-- C10 witness: a grow-only frame at scale 1.65 gains exactly 0.01. -/
theorem scale_per_frame_ramp_app :
    (intentGrow.grow || xrGrow envGround intentGrow) = true ∧
    (intentGrow.shrink || xrShrink envGround intentGrow) = false ∧
    stateInit.scale < 3 ∧
    (frameStep cfgDefault envGround intentGrow (1/60) stateInit).scale =
      stateInit.scale + min (1/100) (3 - stateInit.scale) :=
  ⟨rfl, rfl, by norm_num [stateInit],
    (scale_per_frame_ramp cfgDefault envGround intentGrow (1/60) stateInit).1
      rfl rfl (by norm_num [stateInit])⟩

/-! C7. -/

/-- C7: in a frame with the squeeze intent active, no immersive session and
the forward intent held (and the collider found), the body translation is
advanced by the raw desired displacement in x and z while its y component
uses the collision-resolved movement of the shape-cast, only the resolved y
velocity is written to the body, and the grounded landing clamp still
applies that frame. -/
theorem squeeze_mode_bypass (c : PlayerConfig) (e : Env) (i : Intent)
    (dt : ℚ) (s : PlayerState) (hsq : i.squeeze = true)
    (hse : e.session = false) (hfw : i.forward = true)
    (hc : e.colliderPresent = true) :
    (frameStep c e i dt s).translation.x
        = s.translation.x + movementX c e i s * dt ∧
    (frameStep c e i dt s).translation.z
        = s.translation.z + movementZ c e i s * dt ∧
    (frameStep c e i dt s).translation.y
        = s.translation.y + e.computedMovement.y ∧
    (frameStep c e i dt s).linvel
        = { x := 0, y := e.computedMovement.y / dt, z := 0 } ∧
    (e.frameGrounded = true →
      (jumpPhase e i s).velocity.y + gravity * dt ≤ 0 →
      (frameStep c e i dt s).velocity.y = 0 ∧
      (frameStep c e i dt s).isJumping = false) := by
  have hcond : (i.squeeze && !e.session && i.forward) = true := by
    rw [hsq, hse, hfw]
    rfl
  have hjt : ∀ r : ℚ,
      (jumpPhase e i { s with rotation := r }).translation
        = s.translation := by
    intro r
    unfold jumpPhase
    split_ifs <;> rfl
  have hjv : ∀ r : ℚ,
      (jumpPhase e i { s with rotation := r }).velocity.y
        = (jumpPhase e i s).velocity.y := by
    intro r
    unfold jumpPhase
    by_cases h : (i.jump && !s.isJumping && e.colliderPresent &&
        e.probeGrounded) = true
    · rw [if_pos h, if_pos h]
    · rw [if_neg h, if_neg h]
  simp only [frameStep, physicsPhase, staminaPhase, scalePhase, hc, hcond,
    eq_self_iff_true, if_true]
  refine ⟨?_, ?_, ?_, ?_, ?_⟩
  · rw [hjt]
    rfl
  · rw [hjt]
    rfl
  · rw [hjt]
  · trivial
  · intro hfg hvy
    constructor
    · rw [hjv, if_pos ⟨hfg, hvy⟩]
    · rw [hjv, if_pos ⟨hfg, hvy⟩]

/-- Forward and squeeze keys held together. -/
def intentSqueezeForward : Intent :=
  { intentNone with forward := true, squeeze := true }

/-- C7 witness: a concrete desktop squeeze-forward frame over flat ground
advances z by the raw displacement and still lands with the clamp. -/
theorem squeeze_mode_bypass_app :
    (frameStep cfgDefault envGround intentSqueezeForward (1/10)
        stateInit).translation.z
      = stateInit.translation.z
        + movementZ cfgDefault envGround intentSqueezeForward stateInit
          * (1/10) ∧
    (frameStep cfgDefault envGround intentSqueezeForward (1/10)
        stateInit).velocity.y = 0 ∧
    (frameStep cfgDefault envGround intentSqueezeForward (1/10)
        stateInit).isJumping = false := by
  have h := squeeze_mode_bypass cfgDefault envGround intentSqueezeForward
    (1/10) stateInit rfl rfl rfl rfl
  have hvy : (jumpPhase envGround intentSqueezeForward
      stateInit).velocity.y + gravity * (1/10) ≤ 0 := by
    norm_num [jumpPhase, intentSqueezeForward, intentNone, stateInit,
      envGround, gravity]
  exact ⟨h.2.1, (h.2.2.2.2 rfl hvy).1, (h.2.2.2.2 rfl hvy).2⟩

/-! C8. -/

/-- C8 counterexample: a companion offset of (0.03, 0.04) puts the XZ
distance at exactly 0.05; the code produces zero movement there, while the
claim, whose dead-zone covers only distances strictly below 0.05, demands
the nonzero speed followSpeed times the multiplier for that distance. -/
theorem companion_boundary_cex :
    ((3:ℚ)/100)^2 + ((4:ℚ)/100)^2 = ((1:ℚ)/20)^2 ∧
    companionStep 2 3 (3/100) (4/100) (1/20) = (0, 0) ∧
    (3:ℚ) * min ((((1:ℚ)/20) / 2)^2 * 5 + 1) 8 ≠ 0 := by
  refine ⟨by norm_num, ?_, ?_⟩
  · unfold companionStep
    rw [if_neg (by norm_num)]
  · norm_num [min_def]

/-- C8 amended: the companion distance is computed in the XZ plane only;
at distances at or below the 0.05 dead-zone the horizontal movement is
exactly zero, and at distances strictly above it the movement points from
the companion toward the target with horizontal speed exactly
followSpeed * min((d / followDistance)^2 * 5 + 1, 8). -/
theorem companion_attraction_law (fd fs dx dz d : ℚ)
    (hd2 : d^2 = dx^2 + dz^2) (_hd0 : 0 ≤ d) :
    (d ≤ 1/20 → companionStep fd fs dx dz d = (0, 0)) ∧
    (1/20 < d →
      (companionStep fd fs dx dz d).1 ^ 2
          + (companionStep fd fs dx dz d).2 ^ 2
        = (fs * min ((d / fd)^2 * 5 + 1) 8) ^ 2 ∧
      (companionStep fd fs dx dz d).1 * d
        = dx * (fs * min ((d / fd)^2 * 5 + 1) 8) ∧
      (companionStep fd fs dx dz d).2 * d
        = dz * (fs * min ((d / fd)^2 * 5 + 1) 8)) := by
  constructor
  · intro h
    unfold companionStep
    rw [if_neg (not_lt.mpr h)]
  · intro h
    have hdz : d ≠ 0 := ne_of_gt (lt_trans (by norm_num) h)
    unfold companionStep
    rw [if_pos h]
    refine ⟨?_, ?_, ?_⟩
    · have h1 : (dx / d * fs * min ((d / fd)^2 * 5 + 1) 8)^2
            + (dz / d * fs * min ((d / fd)^2 * 5 + 1) 8)^2
          = (fs * min ((d / fd)^2 * 5 + 1) 8)^2 * ((dx^2 + dz^2) / d^2) := by
        field_simp
        ring
      rw [h1, ← hd2, div_self (pow_ne_zero 2 hdz), mul_one]
    · field_simp
      ring
    · field_simp
      ring

/-- C8 witness: the 3-4-5 offset at distance 5 from the target moves with
squared speed exactly (followSpeed times the multiplier) squared. -/
theorem companion_attraction_law_app :
    ((5:ℚ))^2 = 3^2 + 4^2 ∧
    (companionStep 2 3 3 4 5).1 ^ 2 + (companionStep 2 3 3 4 5).2 ^ 2
      = (3 * min (((5:ℚ) / 2)^2 * 5 + 1) 8) ^ 2 :=
  ⟨by norm_num,
    ((companion_attraction_law 2 3 3 4 5 (by norm_num) (by norm_num)).2
      (by norm_num)).1⟩

/-! C9. -/

/-- Closed form of one axis-aligned companion update. -/
lemma cstep_eq (dt x : ℚ) :
    cstep dt x =
      if 1/20 < |x| then
        x - x / |x| * (3 * min ((|x| / 2)^2 * 5 + 1) 8) * dt
      else x := by
  unfold cstep companionStep
  simp only [zero_sub, abs_neg]
  split_ifs with h
  · show x + -x / |x| * 3 * min ((|x| / 2)^2 * 5 + 1) 8 * dt = _
    ring
  · show x + 0 * dt = x
    ring

/-- Inside the dead-zone the companion update produces zero movement and
leaves the position unchanged. -/
lemma cstep_deadzone (dt x : ℚ) (h : |x| ≤ 1/20) :
    companionStep 2 3 (0 - x) 0 |0 - x| = (0, 0) ∧ cstep dt x = x := by
  constructor
  · unfold companionStep
    simp only [zero_sub, abs_neg]
    rw [if_neg (not_lt.mpr h)]
  · rw [cstep_eq, if_neg (not_lt.mpr h)]

/-- Two opposite rationals have the same absolute value. -/
lemma abs_eq_abs_of_eq_neg {a b : ℚ} (hab : a = -b) : |a| = |b| := by
  rw [hab, abs_neg]

/-- Above the dead-zone, the distance after one 1/60 timestep update is the
previous distance shifted by one twentieth of the speed multiplier. -/
lemma cstep_abs_eq (x : ℚ) (h : 1/20 < |x|) :
    |cstep (1/60) x| = |(|x| - min ((|x| / 2)^2 * 5 + 1) 8 / 20)| := by
  rcases le_or_lt 0 x with hx | hx
  · have hax : |x| = x := abs_of_nonneg hx
    rw [cstep_eq, if_pos h, hax]
    rw [hax] at h
    have hx0 : x ≠ 0 := ne_of_gt (lt_trans (by norm_num) h)
    exact congrArg abs (by field_simp; ring)
  · have hax : |x| = -x := abs_of_neg hx
    rw [cstep_eq, if_pos h, hax]
    have hx0 : x ≠ 0 := ne_of_lt hx
    exact abs_eq_abs_of_eq_neg (by field_simp; ring)

/-- The speed multiplier stays below 40 times the distance whenever the
distance is above the dead-zone. -/
lemma speedMult_lt (x : ℚ) (h : 1/20 < |x|) :
    min ((|x| / 2)^2 * 5 + 1) 8 < 40 * |x| := by
  have hd0 : (0:ℚ) < |x| := lt_trans (by norm_num) h
  rcases le_or_lt ((|x| / 2)^2 * 5 + 1) 8 with hc | hc
  · rw [min_eq_left hc]
    rcases lt_or_le |x| (1/4) with h4 | h4
    · nlinarith [mul_pos (sub_pos.mpr h4)
        (show (0:ℚ) < 1/4 + |x| by linarith)]
    · linarith
  · rw [min_eq_right hc.le]
    nlinarith [mul_pos hd0 hd0]

/-- Above the dead-zone the distance strictly decreases on a 1/60 step. -/
lemma cstep_closer (x : ℚ) (h : 1/20 < |x|) : |cstep (1/60) x| < |x| := by
  have hd0 : (0:ℚ) < |x| := lt_trans (by norm_num) h
  have hm1 : 1 ≤ min ((|x| / 2)^2 * 5 + 1) 8 :=
    le_min (by nlinarith [sq_nonneg (|x| / 2)]) (by norm_num)
  have hm40 := speedMult_lt x h
  rw [cstep_abs_eq x h, abs_lt]
  constructor
  · linarith
  · linarith

/-- Above the dead-zone each 1/60 step either makes one twentieth of
progress or lands inside the dead-zone. -/
lemma cstep_progress (x : ℚ) (h : 1/20 < |x|) :
    |cstep (1/60) x| ≤ |x| - 1/20 ∨ |cstep (1/60) x| ≤ 1/20 := by
  have hd0 : (0:ℚ) < |x| := lt_trans (by norm_num) h
  have hm1 : 1 ≤ min ((|x| / 2)^2 * 5 + 1) 8 :=
    le_min (by nlinarith [sq_nonneg (|x| / 2)]) (by norm_num)
  have hmle : min ((|x| / 2)^2 * 5 + 1) 8 ≤ (|x| / 2)^2 * 5 + 1 :=
    min_le_left _ _
  have hm8 : min ((|x| / 2)^2 * 5 + 1) 8 ≤ 8 := min_le_right _ _
  rw [cstep_abs_eq x h]
  rcases le_or_lt (min ((|x| / 2)^2 * 5 + 1) 8 / 20) |x| with hle | hlt
  · left
    rw [abs_of_nonneg (by linarith)]
    linarith
  · right
    rw [abs_of_neg (by linarith)]
    have h25 : |x| < 2/5 := by linarith
    nlinarith [mul_pos hd0 (sub_pos.mpr h25)]

/-- From any start the iterated 1/60 updates eventually enter the
dead-zone. -/
lemma companion_reaches_deadzone (x0 : ℚ) :
    ∃ n, |companionIterX (1/60) x0 n| ≤ 1/20 := by
  by_contra hcon
  push_neg at hcon
  have key : ∀ n : ℕ,
      |companionIterX (1/60) x0 n| ≤ |x0| - (n : ℚ) * (1/20) := by
    intro n
    induction n with
    | zero =>
      have hid0 : companionIterX (1/60) x0 0 = x0 := rfl
      rw [hid0]
      push_cast
      norm_num
    | succ k ih =>
      have hid : companionIterX (1/60) x0 (k + 1)
          = cstep (1/60) (companionIterX (1/60) x0 k) := rfl
      rcases cstep_progress (companionIterX (1/60) x0 k) (hcon k) with h1 | h2
      · rw [hid]
        push_cast
        linarith
      · rw [← hid] at h2
        exact absurd h2 (not_le.mpr (hcon (k + 1)))
  obtain ⟨n, hn⟩ := exists_nat_gt (20 * |x0|)
  have h1 := key n
  have h3 : (0:ℚ) ≤ |companionIterX (1/60) x0 n| := abs_nonneg _
  linarith [hn, h1, h3]

/-- C9 counterexample: with the default follow parameters, a stationary
target, no obstacles and the fixed timestep 0.1 s, the companion started at
distance 3 (beyond followDistance 2) reaches distance about 0.145 after
three updates, still above the 0.05 dead-zone, and the fourth update moves
it farther away (to about 0.163): the distance does not decrease
monotonically until the dead-zone. -/
theorem companion_not_monotone_cex :
    2 < |companionIterX (1/10) 3 0| ∧
    1/20 < |companionIterX (1/10) 3 3| ∧
    |companionIterX (1/10) 3 3| < |companionIterX (1/10) 3 4| := by
  have e0 : companionIterX (1/10) 3 0 = 3 := rfl
  have e1 : companionIterX (1/10) 3 1 = 3/5 := by
    show cstep (1/10) (companionIterX (1/10) 3 0) = 3/5
    rw [e0, cstep_eq, abs_of_nonneg (by norm_num : (0:ℚ) ≤ 3),
      if_pos (by norm_num : (1:ℚ)/20 < 3),
      min_eq_right (by norm_num : (8:ℚ) ≤ ((3:ℚ)/2)^2 * 5 + 1)]
    norm_num
  have e2 : companionIterX (1/10) 3 2 = 33/200 := by
    show cstep (1/10) (companionIterX (1/10) 3 1) = 33/200
    rw [e1, cstep_eq, abs_of_nonneg (by norm_num : (0:ℚ) ≤ (3:ℚ)/5),
      if_pos (by norm_num : (1:ℚ)/20 < (3:ℚ)/5),
      min_eq_left (by norm_num : ((3:ℚ)/5/2)^2 * 5 + 1 ≤ 8)]
    norm_num
  have e3 : companionIterX (1/10) 3 3 = -(46467/320000) := by
    show cstep (1/10) (companionIterX (1/10) 3 2) = -(46467/320000)
    rw [e2, cstep_eq, abs_of_nonneg (by norm_num : (0:ℚ) ≤ (33:ℚ)/200),
      if_pos (by norm_num : (1:ℚ)/20 < (33:ℚ)/200),
      min_eq_left (by norm_num : ((33:ℚ)/200/2)^2 * 5 + 1 ≤ 8)]
    norm_num
  have e4 : companionIterX (1/10) 3 4 = 133282026267/819200000000 := by
    show cstep (1/10) (companionIterX (1/10) 3 3) = 133282026267/819200000000
    rw [e3, cstep_eq,
      abs_of_nonpos (by norm_num : -((46467:ℚ)/320000) ≤ 0),
      if_pos (by norm_num : (1:ℚ)/20 < -(-((46467:ℚ)/320000))),
      min_eq_left (by norm_num : (-(-((46467:ℚ)/320000)) / 2)^2 * 5 + 1 ≤ 8)]
    norm_num
  refine ⟨?_, ?_, ?_⟩
  · rw [e0, abs_of_nonneg (by norm_num : (0:ℚ) ≤ 3)]
    norm_num
  · rw [e3, abs_of_nonpos (by norm_num : -((46467:ℚ)/320000) ≤ 0)]
    norm_num
  · rw [e3, e4, abs_of_nonpos (by norm_num : -((46467:ℚ)/320000) ≤ 0),
      abs_of_nonneg (by norm_num : (0:ℚ) ≤ (133282026267:ℚ)/819200000000)]
    norm_num

/-- C9 amended: with the default follow parameters (followDistance 2,
followSpeed 3), a stationary target, no obstacles and the fixed timestep
1/60 s, every update taken while the XZ distance exceeds 0.05 strictly
decreases that distance, the distance reaches the 0.05 dead-zone after
finitely many updates, and once inside the dead-zone the horizontal
movement is exactly zero and the position no longer changes.  (For large
fixed timesteps such as 0.1 s the distance can increase near the dead-zone,
so the monotone decrease of the original claim fails there.) -/
theorem companion_converges_small_dt (x0 : ℚ) :
    (∀ n, 1/20 < |companionIterX (1/60) x0 n| →
      |companionIterX (1/60) x0 (n + 1)| < |companionIterX (1/60) x0 n|) ∧
    (∃ n, |companionIterX (1/60) x0 n| ≤ 1/20) ∧
    (∀ n, |companionIterX (1/60) x0 n| ≤ 1/20 →
      companionStep 2 3 (0 - companionIterX (1/60) x0 n) 0
          |0 - companionIterX (1/60) x0 n| = (0, 0) ∧
      companionIterX (1/60) x0 (n + 1) = companionIterX (1/60) x0 n) := by
  refine ⟨?_, companion_reaches_deadzone x0, ?_⟩
  · intro n h
    exact cstep_closer _ h
  · intro n h
    exact ⟨(cstep_deadzone (1/60) _ h).1, (cstep_deadzone (1/60) _ h).2⟩

/-- C9 witness: from distance 3 (beyond followDistance 2) the first 1/60
update strictly decreases the distance. -/
theorem companion_converges_small_dt_app :
    1/20 < |companionIterX (1/60) 3 0| ∧
    |companionIterX (1/60) 3 1| < |companionIterX (1/60) 3 0| := by
  have h0 : (1:ℚ)/20 < |companionIterX (1/60) 3 0| := by
    show (1:ℚ)/20 < |(3:ℚ)|
    rw [abs_of_nonneg (by norm_num : (0:ℚ) ≤ 3)]
    norm_num
  exact ⟨h0, (companion_converges_small_dt 3).1 0 h0⟩

end XrFormant
